import Mathlib

/-!
Verification of learnopengl: `square.cpp` and `triangle.cpp`.

A shallow embedding of the two programs of the repository.  Every call into
GLFW, glad/OpenGL and `std::cout` is recorded as an `Event`; whatever the
outside world decides (does the window exist, what did the driver answer,
which keys are down in a frame) is read from an `Env` and a list of
`FrameInput`s.
-/

namespace LearnOpenGL

/-! ## `std::ifstream` and `std::getline` -/

/-- The part of a `std::ifstream` the programs observe: the characters not yet
extracted and the two state bits `std::getline` sets. -/
structure IfStream where
  buf : List Char
  eofbit : Bool
  failbit : Bool
  deriving DecidableEq

/-- Constructor `std::ifstream stream(filePath)`: `none` is a file that cannot
be opened, which leaves the stream with `failbit` set. -/
def IfStream.ofFile : Option (List Char) → IfStream
  | some content => ⟨content, false, false⟩
  | none => ⟨[], false, true⟩

/-- Conversion `operator bool` of a stream: `!fail()`. -/
def IfStream.ok (s : IfStream) : Bool := !s.failbit

/-- The extraction loop of `std::getline`: characters are moved to the line
until the delimiter `'\n'` is met (it is extracted and dropped) or the input
ends.  Result: the line, the rest of the input, and whether the end of the
input was hit. -/
def extractLine : List Char → List Char × List Char × Bool
  | [] => ([], [], true)
  | c :: rest =>
    if c = '\n' then ([], rest, false)
    else
      let r := extractLine rest
      (c :: r.1, r.2.1, r.2.2)

/-- Function `std::getline(stream, line)`.  The sentry fails on a stream that
is not good and sets `failbit`, leaving `line` alone.  Otherwise the line is
erased and refilled; `eofbit` is set when the input ended during extraction and
`failbit` when nothing at all was extracted. -/
def getline (s : IfStream) (line : List Char) : IfStream × List Char :=
  if s.eofbit || s.failbit then
    ({ s with failbit := true }, line)
  else
    let r := extractLine s.buf
    ({ buf := r.2.1, eofbit := r.2.2, failbit := r.2.2 && r.1.isEmpty }, r.1)

/-- The loop `while (std::getline(stream, line)) shaderSource += line + "\n";`
of `parseShaderSource`, with a bound on the number of `getline` calls; `none`
means the bound was reached before the loop ended. -/
def parseLoop : Nat → IfStream → List Char → List Char → Option (List Char)
  | 0, _, _, _ => none
  | fuel + 1, stream, line, shaderSource =>
    let r := getline stream line
    if r.1.ok then parseLoop fuel r.1 r.2 (shaderSource ++ (r.2 ++ ['\n']))
    else some shaderSource

/-- Function `parseShaderSource` of square.cpp, on the content of the file at
`filePath` (`none`: the file cannot be opened). -/
def parseShaderSource (file : Option (List Char)) : Option (List Char) :=
  let stream := IfStream.ofFile file
  parseLoop (stream.buf.length + 2) stream [] []

/-- The lines of a text in the usual sense: maximal runs of characters other
than `'\n'`, each ended by a `'\n'` or by the end of the text. -/
def linesOf : List Char → List (List Char)
  | [] => []
  | c :: cs =>
    if c = '\n' then [] :: linesOf cs
    else
      match linesOf cs with
      | [] => [[c]]
      | l :: ls => (c :: l) :: ls

/-- What the prose description of `parseShaderSource` promises for a readable
file: the content itself if it is empty or ends in `'\n'`, else the content
with one `'\n'` appended. -/
def newlineTerminated (c : List Char) : List Char :=
  if c = [] ∨ c.getLast? = some '\n' then c else c ++ ['\n']

/-! ## The calls the programs make -/

/-- Keys queried with `glfwGetKey`. -/
inductive Key where
  | ESCAPE
  | SPACE
  deriving DecidableEq

/-- Hints passed to `glfwWindowHint`. -/
inductive Hint where
  | CONTEXT_VERSION_MAJOR
  | CONTEXT_VERSION_MINOR
  | OPENGL_PROFILE
  | OPENGL_FORWARD_COMPAT
  deriving DecidableEq

/-- Values passed to `glfwWindowHint`. -/
inductive HintValue where
  | int (n : Nat)
  | OPENGL_CORE_PROFILE
  | GL_TRUE
  deriving DecidableEq

/-- Buffer binding targets. -/
inductive Target where
  | ARRAY_BUFFER
  | ELEMENT_ARRAY_BUFFER
  deriving DecidableEq

/-- Shader stages of `glCreateShader`. -/
inductive Stage where
  | VERTEX_SHADER
  | FRAGMENT_SHADER
  deriving DecidableEq

/-- Rasterisation modes of `glPolygonMode`. -/
inductive PolygonMode where
  | FILL
  | LINE
  deriving DecidableEq

/-- The other polygon mode. -/
def PolygonMode.flip : PolygonMode → PolygonMode
  | FILL => LINE
  | LINE => FILL

/-- Data handed to `glBufferData`.  A `float` literal of the source is kept as
the number of tenths it is written as (`0.5f` is `5`, `-0.5f` is `-5`). -/
inductive BufferData where
  | floats (xs : List Int)
  | uints (xs : List Nat)
  deriving DecidableEq

/-- One operand of a `std::cout <<` chain. -/
inductive Out where
  | lit (s : String)
  | text (cs : List Char)
  | num (n : Nat)
  deriving DecidableEq

/-- A call made by `main`, with the arguments that vary and, for calls that
return something the program uses, the value returned. -/
inductive Event where
  | cout (o : Out)
  | glfwInit
  | glfwWindowHint (hint : Hint) (value : HintValue)
  | glfwCreateWindow (width height : Nat) (title : String) (result : Option Nat)
  | glfwTerminate
  | glfwMakeContextCurrent (window : Nat)
  | gladLoadGL (result : Nat)
  | glViewport (x y width height : Nat)
  | glfwSetFramebufferSizeCallback (window : Nat)
  | glGenVertexArrays (n : Nat) (name : Nat)
  | glBindVertexArray (name : Nat)
  | glGenBuffers (n : Nat) (name : Nat)
  | glBindBuffer (target : Target) (name : Nat)
  | glBufferData (target : Target) (size : Nat) (data : BufferData)
  | glVertexAttribPointer (index size : Nat) (normalized : Bool) (stride offset : Nat)
  | glEnableVertexAttribArray (index : Nat)
  | glCreateShader (stage : Stage) (result : Nat)
  | glShaderSource (shader : Nat) (source : List Char)
  | glCompileShader (shader : Nat)
  | glGetShaderiv_COMPILE_STATUS (shader : Nat) (result : Bool)
  | glGetShaderInfoLog (shader : Nat) (bufSize : Nat) (result : List Char)
  | glCreateProgram (result : Nat)
  | glAttachShader (program shader : Nat)
  | glLinkProgram (program : Nat)
  | glGetProgramiv_LINK_STATUS (program : Nat) (result : Bool)
  | glGetProgramInfoLog (program : Nat) (bufSize : Nat) (result : List Char)
  | glUseProgram (program : Nat)
  | glDeleteShader (shader : Nat)
  | glPolygonMode (mode : PolygonMode)
  | glfwGetKey (window : Nat) (key : Key) (pressed : Bool)
  | glfwSetWindowShouldClose (window : Nat) (value : Bool)
  | glClearColor (r g b a : Int)
  | glClear
  | glDrawElements_TRIANGLES (count : Nat) (offset : Nat)
  | glDrawArrays_TRIANGLES (first count : Nat)
  | glfwSwapBuffers (window : Nat)
  | glfwPollEvents
  | glDeleteVertexArrays (n : Nat) (name : Nat)
  | glDeleteBuffers (n : Nat) (name : Nat)
  | glDeleteProgram (program : Nat)
  deriving DecidableEq

/-! ## The outside world -/

/-- What the driver answers about one compile or link: the value the status
query stores in `success` and the diagnostic log it keeps. -/
structure Outcome where
  status : Bool
  log : List Char
  deriving DecidableEq

/-- Everything `main` reads from outside before the render loop. -/
structure Env where
  /-- Result of `glfwCreateWindow`; `none` is `NULL`. -/
  window : Option Nat
  /-- Result of `gladLoadGL`; `0` is failure. -/
  gladVersion : Nat
  /-- Content of `../res/shaders/basic.vert`; `none` if it cannot be opened. -/
  vertFile : Option (List Char)
  /-- Content of `../res/shaders/basic.frag`; `none` if it cannot be opened. -/
  fragFile : Option (List Char)
  /-- Names produced by `glGenVertexArrays` and `glGenBuffers`. -/
  VAO : Nat
  VBO : Nat
  EBO : Nat
  /-- Results of `glCreateShader` and `glCreateProgram`. -/
  vertexShader : Nat
  fragmentShader : Nat
  shaderProgram : Nat
  /-- Driver answers for the two compiles and the link. -/
  vertexCompile : Outcome
  fragmentCompile : Outcome
  link : Outcome
  /-- The window's should-close flag when the render loop is first reached. -/
  shouldClose : Bool
  deriving DecidableEq

/-- What one pass of the render loop reads from outside: the two key states
`glfwGetKey` reports, and whether `glfwPollEvents` at the end of the pass
delivers a close request (which sets the window's should-close flag). -/
structure FrameInput where
  escape : Bool
  space : Bool
  closeRequest : Bool
  deriving DecidableEq

/-- An execution of `main` as far as the given frame inputs reach.  `exit` is
the value `main` returns, `none` if the render loop was still running when the
inputs ended (or a file read did not finish within its bound). -/
structure Run (φ : Type) where
  init : List Event
  frames : List φ
  shutdown : List Event
  exit : Option Int
  deriving DecidableEq

/-! ## Helpers shared by both programs -/

/-- Size in bytes of `float` and of `unsigned int` in the OpenGL ABI
(`GLfloat`, `GLuint`). -/
def sizeofScalar : Nat := 4

/-- Value of the enum `GL_LINK_STATUS` (OpenGL registry, `0x8B82`). -/
def GL_LINK_STATUS : Nat := 0x8B82

/-- A `char` array or `std::string` read as a C string: the characters before
the first NUL. -/
def c_str (s : List Char) : List Char := s.takeWhile (fun c => c ≠ Char.ofNat 0)

/-- What `glGetShaderInfoLog` / `glGetProgramInfoLog` leave in a buffer of
`bufSize` chars: at most `bufSize - 1` characters of the log, then NUL. -/
def infoLogBuffer (bufSize : Nat) (log : List Char) : List Char :=
  c_str (log.take (bufSize - 1))

/-- Function `processInput`: returns the should-close flag afterwards and the
calls made. -/
def processInput (window : Nat) (escape : Bool) (shouldClose : Bool) : Bool × List Event :=
  if escape then
    (true, [.glfwGetKey window .ESCAPE true, .glfwSetWindowShouldClose window true])
  else
    (shouldClose, [.glfwGetKey window .ESCAPE false])

/-- Lines 38-45 of square.cpp (19-26 of triangle.cpp): library start, window
hints, window creation. -/
def windowCalls (env : Env) : List Event :=
  [ .glfwInit,
    .glfwWindowHint .CONTEXT_VERSION_MAJOR (.int 3),
    .glfwWindowHint .CONTEXT_VERSION_MINOR (.int 3),
    .glfwWindowHint .OPENGL_PROFILE .OPENGL_CORE_PROFILE,
    .glfwWindowHint .OPENGL_FORWARD_COMPAT .GL_TRUE,
    .glfwCreateWindow 800 600 "LearnOpenGL" env.window ]

/-- The calls up to and including `gladLoadGL`, once the window exists. -/
def contextCalls (env : Env) (window : Nat) : List Event :=
  windowCalls env ++ [.glfwMakeContextCurrent window, .gladLoadGL env.gladVersion]

/-- The first lines of both `main`s after the banner, up to the registration
of the resize callback.  `Sum.inl` is an early `return -1` with the calls made
so far and those made on the way out; `Sum.inr` is the window and the calls. -/
def initContext (env : Env) : (List Event × List Event) ⊕ (Nat × List Event) :=
  match env.window with
  | none =>
    .inl (windowCalls env ++ [.cout (.lit "GLFW Window error"), .cout (.lit "\n")],
          [.glfwTerminate])
  | some window =>
    if env.gladVersion = 0 then
      .inl (contextCalls env window ++ [.cout (.lit "GLAD Init Failed!"), .cout (.lit "\n")], [])
    else
      .inr (window, contextCalls env window ++
        [.glViewport 0 0 800 600, .glfwSetFramebufferSizeCallback window])

/-- The polygon mode after a call, given the mode before it. -/
def applyPolygonMode (m : PolygonMode) : Event → PolygonMode
  | .glPolygonMode m' => m'
  | _ => m

/-- The polygon mode last set through `glPolygonMode` once the calls `evs`
have been made, starting from mode `m`. -/
def polygonModeAfter (m : PolygonMode) (evs : List Event) : PolygonMode :=
  evs.foldl applyPolygonMode m

/-- What `std::cout` has received once the calls `evs` have been made. -/
def stdout (evs : List Event) : List Out :=
  evs.filterMap fun e => match e with
    | .cout o => some o
    | _ => none

/-! ## square.cpp -/

namespace Square

/-- Array `vertices` (in tenths): four corners and the middle, three
coordinates each. -/
def vertices : List Int :=
  [ 5, 5, 0,
    5, -5, 0,
    -5, -5, 0,
    -5, 5, 0,
    0, 0, 0 ]

/-- Array `indices`: four triangles. -/
def indices : List Nat :=
  [ 2, 3, 4,
    0, 1, 4,
    0, 3, 4,
    1, 2, 4 ]

/-- The variables the render loop carries from one pass to the next: the
window's should-close flag and the local `wireframe`. -/
structure LoopState where
  shouldClose : Bool
  wireframe : Bool
  deriving DecidableEq

/-- Record of one pass of the render loop: the calls made, in order, and the
value of `wireframe` when the Space-key block has run. -/
structure Frame where
  events : List Event
  wireframe : Bool
  deriving DecidableEq

/-- Lines 91-108: vertex array, vertex buffer, element buffer, attribute
layout. -/
def geometry (env : Env) : List Event :=
  [ .glGenVertexArrays 1 env.VAO,
    .glBindVertexArray env.VAO,
    .glGenBuffers 1 env.VBO,
    .glBindBuffer .ARRAY_BUFFER env.VBO,
    .glBufferData .ARRAY_BUFFER (vertices.length * sizeofScalar) (.floats vertices),
    .glGenBuffers 1 env.EBO,
    .glBindBuffer .ELEMENT_ARRAY_BUFFER env.EBO,
    .glBufferData .ELEMENT_ARRAY_BUFFER (indices.length * sizeofScalar) (.uints indices),
    .glVertexAttribPointer 0 3 false (3 * sizeofScalar) 0,
    .glEnableVertexAttribArray 0,
    .glBindVertexArray 0 ]

/-- Lines 110-120: the vertex stage and its status check. -/
def compileVertex (env : Env) (source : List Char) : List Event :=
  [ .glCreateShader .VERTEX_SHADER env.vertexShader,
    .glShaderSource env.vertexShader (c_str source),
    .glCompileShader env.vertexShader,
    .glGetShaderiv_COMPILE_STATUS env.vertexShader env.vertexCompile.status ] ++
  if !env.vertexCompile.status then
    [ .glGetShaderInfoLog env.vertexShader 512 (infoLogBuffer 512 env.vertexCompile.log),
      .cout (.lit "ERROR::SHADER::VERTEX::COMPILATION_FAILED\n"),
      .cout (.text (infoLogBuffer 512 env.vertexCompile.log)),
      .cout (.lit "\n") ]
  else []

/-- Lines 122-132: the fragment stage and its status check. -/
def compileFragment (env : Env) (source : List Char) : List Event :=
  [ .glCreateShader .FRAGMENT_SHADER env.fragmentShader,
    .glShaderSource env.fragmentShader (c_str source),
    .glCompileShader env.fragmentShader,
    .glGetShaderiv_COMPILE_STATUS env.fragmentShader env.fragmentCompile.status ] ++
  if !env.fragmentCompile.status then
    [ .glGetShaderInfoLog env.fragmentShader 512 (infoLogBuffer 512 env.fragmentCompile.log),
      .cout (.lit "ERROR::SHADER::FRAGMENT::COMPILATION_FAILED\n"),
      .cout (.text (infoLogBuffer 512 env.fragmentCompile.log)),
      .cout (.lit "\n") ]
  else []

/-- Lines 134-145: the program object, the link and its status check. -/
def linkProgram (env : Env) : List Event :=
  [ .glCreateProgram env.shaderProgram,
    .glAttachShader env.shaderProgram env.vertexShader,
    .glAttachShader env.shaderProgram env.fragmentShader,
    .glLinkProgram env.shaderProgram,
    .glGetProgramiv_LINK_STATUS env.shaderProgram env.link.status ] ++
  if !env.link.status then
    [ .glGetProgramInfoLog env.shaderProgram 512 (infoLogBuffer 512 env.link.log),
      .cout (.lit "ERROR::PROGRAM::LINK_FAILED\n"),
      .cout (.num GL_LINK_STATUS),
      .cout (.lit "\n") ]
  else []

/-- Lines 157-165, the Space-key block: returns `wireframe` afterwards and the
calls made. -/
def toggleBlock (window : Nat) (space : Bool) (wireframe : Bool) : Bool × List Event :=
  if space then
    if wireframe then
      (!wireframe, [.glfwGetKey window .SPACE true, .glPolygonMode .FILL])
    else
      (!wireframe, [.glfwGetKey window .SPACE true, .glPolygonMode .LINE])
  else
    (wireframe, [.glfwGetKey window .SPACE false])

/-- Lines 169-183: clear, draw, present, poll. -/
def drawBlock (env : Env) (window : Nat) : List Event :=
  [ .glClearColor 0 0 0 0,
    .glClear,
    .glUseProgram env.shaderProgram,
    .glBindVertexArray env.VAO,
    .glDrawElements_TRIANGLES 12 0,
    .glBindVertexArray 0,
    .glfwSwapBuffers window,
    .glfwPollEvents ]

/-- The body of the render loop (lines 155-183), run once. -/
def frame (env : Env) (window : Nat) (i : FrameInput) (st : LoopState) : LoopState × Frame :=
  let p := processInput window i.escape st.shouldClose
  let t := toggleBlock window i.space st.wireframe
  ({ shouldClose := p.1 || i.closeRequest, wireframe := t.1 },
   { events := p.2 ++ t.2 ++ drawBlock env window, wireframe := t.1 })

/-- The loop `while (!glfwWindowShouldClose(window))`, fed one `FrameInput`
per pass.  The second component tells whether the loop condition was seen
false, that is whether the loop ended within the inputs given. -/
def renderLoop (env : Env) (window : Nat) : List FrameInput → LoopState → List Frame × Bool
  | [], st => ([], st.shouldClose)
  | i :: rest, st =>
    if st.shouldClose then ([], true)
    else
      let r := frame env window i st
      let l := renderLoop env window rest r.1
      (r.2 :: l.1, l.2)

/-- Lines 186-191. -/
def shutdown (env : Env) : List Event :=
  [ .glDeleteVertexArrays 1 env.VAO,
    .glDeleteBuffers 1 env.VBO,
    .glDeleteBuffers 1 env.EBO,
    .glDeleteProgram env.shaderProgram,
    .glfwTerminate ]

/-- Lines 87-151: echo of the two sources, geometry, the two stages, the
program, initial polygon mode. -/
def pipeline (env : Env) (vertexShaderCode fragmentShaderCode : List Char) : List Event :=
  [ .cout (.lit "VERTEX CODE: "), .cout (.text vertexShaderCode), .cout (.lit "\n"),
    .cout (.lit "FRAGMENT CODE: "), .cout (.text fragmentShaderCode), .cout (.lit "\n") ] ++
  geometry env ++
  compileVertex env vertexShaderCode ++
  compileFragment env fragmentShaderCode ++
  linkProgram env ++
  [ .glUseProgram env.shaderProgram,
    .glDeleteShader env.vertexShader,
    .glDeleteShader env.fragmentShader,
    .glPolygonMode .LINE ]

/-- Line 36. -/
def banner : List Event := [.cout (.lit "square"), .cout (.lit "\n")]

/-- Function `main` of square.cpp. -/
def main (env : Env) (inputs : List FrameInput) : Run Frame :=
  match initContext env with
  | .inl (evs, out) =>
    { init := banner ++ evs, frames := [], shutdown := out, exit := some (-1) }
  | .inr (window, evs) =>
    match parseShaderSource env.vertFile, parseShaderSource env.fragFile with
    | some vertexShaderCode, some fragmentShaderCode =>
      let init := banner ++ evs ++ pipeline env vertexShaderCode fragmentShaderCode
      let l := renderLoop env window inputs { shouldClose := env.shouldClose, wireframe := true }
      if l.2 then
        { init := init, frames := l.1, shutdown := shutdown env, exit := some 0 }
      else
        { init := init, frames := l.1, shutdown := [], exit := none }
    | _, _ => { init := banner ++ evs, frames := [], shutdown := [], exit := none }

end Square

/-! ## triangle.cpp -/

namespace Triangle

/-- Array `vertices` (in tenths). -/
def vertices : List Int := [-5, -5, 0, 5, -5, 0, 0, 5, 0]

/-- C string `vertexShaderSource`; the literal ends in an explicit NUL. -/
def vertexShaderSource : List Char :=
  ("#version 330 core\n" ++
   "layout (location = 0) in vec3 aPos;\n" ++
   "void main() \x7b\n" ++
   " gl_Position = vec4(aPos.x, aPos.y, aPos.z, 1.0);\n" ++
   "\x7d").toList ++ [Char.ofNat 0]

/-- C string `fragmentShaderSource`. -/
def fragmentShaderSource : List Char :=
  ("#version 330 core\n" ++
   "out vec4 FragColor;\n" ++
   "void main() \x7b\n" ++
   "FragColor = vec4(1.0f, 0.1f, 0.9f, 1.0f);\n" ++
   "\x7d//0").toList

/-- Lines 64-77: vertex array and vertex buffer. -/
def geometry (env : Env) : List Event :=
  [ .glGenVertexArrays 1 env.VAO,
    .glGenBuffers 1 env.VBO,
    .glBindVertexArray env.VAO,
    .glBindBuffer .ARRAY_BUFFER env.VBO,
    .glBufferData .ARRAY_BUFFER (vertices.length * sizeofScalar) (.floats vertices) ]

/-- Lines 105-121: the vertex stage and its status check. -/
def compileVertex (env : Env) : List Event :=
  [ .glCreateShader .VERTEX_SHADER env.vertexShader,
    .glShaderSource env.vertexShader (c_str vertexShaderSource),
    .glCompileShader env.vertexShader,
    .glGetShaderiv_COMPILE_STATUS env.vertexShader env.vertexCompile.status ] ++
  if !env.vertexCompile.status then
    [ .glGetShaderInfoLog env.vertexShader 512 (infoLogBuffer 512 env.vertexCompile.log),
      .cout (.lit "ERROR::SHADER::VERTEX::COMPILATION_FAILED\n"),
      .cout (.text (infoLogBuffer 512 env.vertexCompile.log)),
      .cout (.lit "\n") ]
  else []

/-- Lines 134-137: the fragment stage; its status is not queried. -/
def compileFragment (env : Env) : List Event :=
  [ .glCreateShader .FRAGMENT_SHADER env.fragmentShader,
    .glShaderSource env.fragmentShader (c_str fragmentShaderSource),
    .glCompileShader env.fragmentShader ]

/-- Lines 142-152: the program object, the link and its status check, which
fetches the log and prints nothing. -/
def linkProgram (env : Env) : List Event :=
  [ .glCreateProgram env.shaderProgram,
    .glAttachShader env.shaderProgram env.vertexShader,
    .glAttachShader env.shaderProgram env.fragmentShader,
    .glLinkProgram env.shaderProgram,
    .glGetProgramiv_LINK_STATUS env.shaderProgram env.link.status ] ++
  if !env.link.status then
    [ .glGetProgramInfoLog env.shaderProgram 512 (infoLogBuffer 512 env.link.log) ]
  else []

/-- The body of the render loop (lines 205-215), run once: the should-close
flag afterwards and the calls made. -/
def frame (env : Env) (window : Nat) (i : FrameInput) (shouldClose : Bool) : Bool × List Event :=
  let p := processInput window i.escape shouldClose
  (p.1 || i.closeRequest,
   p.2 ++
   [ .glClearColor 6 1 9 8,
     .glClear,
     .glUseProgram env.shaderProgram,
     .glBindVertexArray env.VAO,
     .glDrawArrays_TRIANGLES 0 3,
     .glfwSwapBuffers window,
     .glfwPollEvents ])

/-- The loop `while (!glfwWindowShouldClose(window))`, fed one `FrameInput`
per pass; the second component tells whether the loop ended within the inputs
given. -/
def renderLoop (env : Env) (window : Nat) : List FrameInput → Bool → List (List Event) × Bool
  | [], shouldClose => ([], shouldClose)
  | i :: rest, shouldClose =>
    if shouldClose then ([], true)
    else
      let r := frame env window i shouldClose
      let l := renderLoop env window rest r.1
      (r.2 :: l.1, l.2)

/-- Lines 218-222. -/
def shutdown (env : Env) : List Event :=
  [ .glDeleteVertexArrays 1 env.VAO,
    .glDeleteBuffers 1 env.VBO,
    .glDeleteProgram env.shaderProgram,
    .glfwTerminate ]

/-- Lines 64-181 in execution order: geometry, the two stages, the program,
attribute layout. -/
def pipeline (env : Env) : List Event :=
  geometry env ++
  compileVertex env ++
  compileFragment env ++
  linkProgram env ++
  [ .glUseProgram env.shaderProgram,
    .glDeleteShader env.vertexShader,
    .glDeleteShader env.fragmentShader,
    .glVertexAttribPointer 0 3 false (3 * sizeofScalar) 0,
    .glEnableVertexAttribArray 0 ]

/-- Line 17. -/
def banner : List Event := [.cout (.lit "hello"), .cout (.lit "\n")]

/-- Function `main` of triangle.cpp. -/
def main (env : Env) (inputs : List FrameInput) : Run (List Event) :=
  match initContext env with
  | .inl (evs, out) =>
    { init := banner ++ evs, frames := [], shutdown := out, exit := some (-1) }
  | .inr (window, evs) =>
    let init := banner ++ evs ++ pipeline env
    let l := renderLoop env window inputs env.shouldClose
    if l.2 then
      { init := init, frames := l.1, shutdown := shutdown env, exit := some 0 }
    else
      { init := init, frames := l.1, shutdown := [], exit := none }

end Triangle

/-- An environment in which everything succeeds; the examples vary it. -/
def sampleEnv : Env :=
  { window := some 1, gladVersion := 33,
    vertFile := some "void main()\n".toList, fragFile := some "void main()".toList,
    VAO := 1, VBO := 2, EBO := 3,
    vertexShader := 4, fragmentShader := 5, shaderProgram := 6,
    vertexCompile := ⟨true, []⟩, fragmentCompile := ⟨true, []⟩, link := ⟨true, []⟩,
    shouldClose := false }

/-- No key down, no close request. -/
def idle : FrameInput := ⟨false, false, false⟩

/-- Only Space down. -/
def spaceDown : FrameInput := ⟨false, true, false⟩

/-- Only Escape down. -/
def escapeDown : FrameInput := ⟨true, false, false⟩

/-! ## Vocabulary of the properties -/

/-- Draw calls. -/
def isDrawCall : Event → Bool
  | .glDrawElements_TRIANGLES _ _ => true
  | .glDrawArrays_TRIANGLES _ _ => true
  | _ => false

/-- The calls of a frame made before its draw call. -/
def beforeDraw (evs : List Event) : List Event :=
  evs.takeWhile fun e => !isDrawCall e

/-- Primitive assembly of `GL_TRIANGLES`: consecutive triples of indices, an
incomplete last triple being dropped. -/
def assembleTriangles : List Nat → List (Nat × Nat × Nat)
  | a :: b :: c :: rest => (a, b, c) :: assembleTriangles rest
  | _ => []

/-- Calls that only serve diagnosis: status queries, log fetches, printing. -/
def isDiagnostic : Event → Bool
  | .cout _ => true
  | .glGetShaderiv_COMPILE_STATUS _ _ => true
  | .glGetShaderInfoLog _ _ _ => true
  | .glGetProgramiv_LINK_STATUS _ _ => true
  | .glGetProgramInfoLog _ _ _ => true
  | _ => false

/-- The same environment with both compiles and the link reporting success. -/
def Env.allSucceed (env : Env) : Env :=
  { env with
    vertexCompile := { env.vertexCompile with status := true }
    fragmentCompile := { env.fragmentCompile with status := true }
    link := { env.link with status := true } }

/-- Release of the program object. -/
def isProgramRelease : Event → Bool
  | .glDeleteProgram _ => true
  | _ => false

/-- Release of a geometry object (vertex array, vertex buffer, index buffer). -/
def isGeometryRelease : Event → Bool
  | .glDeleteVertexArrays _ _ => true
  | .glDeleteBuffers _ _ => true
  | _ => false

/-- Release of the context. -/
def isContextRelease : Event → Bool
  | .glfwTerminate => true
  | _ => false

/-- Creation of the program object. -/
def isProgramAcquire : Event → Bool
  | .glCreateProgram _ => true
  | _ => false

/-- Creation of a geometry object. -/
def isGeometryAcquire : Event → Bool
  | .glGenVertexArrays _ _ => true
  | .glGenBuffers _ _ => true
  | _ => false

/-- Creation of the window and its context. -/
def isContextAcquire : Event → Bool
  | .glfwCreateWindow _ _ _ _ => true
  | _ => false

/-- In `evs`, every call satisfying `p` comes before every call satisfying
`q`: no `q` call is followed by a `p` call. -/
def allBefore (p q : Event → Bool) : List Event → Bool
  | [] => true
  | e :: rest => (!q e || !rest.any p) && allBefore p q rest

/-- The loop of either program ends within the inputs given: the should-close
flag is set on arrival, or some frame has Escape down or a close request. -/
def closes (env : Env) (inputs : List FrameInput) : Bool :=
  env.shouldClose || inputs.any fun i => i.escape || i.closeRequest

/-- Creation of the context, of a geometry object or of the program. -/
def isAcquire (e : Event) : Bool :=
  isContextAcquire e || isGeometryAcquire e || isProgramAcquire e

/-- The same environment with each shader file that cannot be opened replaced
by an empty file. -/
def Env.missingAsEmpty (env : Env) : Env :=
  { env with
    vertFile := some (env.vertFile.getD [])
    fragFile := some (env.fragFile.getD []) }

/-- The sample environment with a vertex shader file that cannot be opened. -/
def noVertFile : Env := { sampleEnv with vertFile := none }

/-- The sample environment with a failing fragment compile and a failing
link, each with a log. -/
def failingEnv : Env :=
  { sampleEnv with
    fragmentCompile := ⟨false, "0:1: syntax error".toList⟩
    link := ⟨false, "link: unresolved".toList⟩ }

/-- The sample environment with a failing vertex compile, with a log. -/
def vertexFailingEnv : Env :=
  { sampleEnv with vertexCompile := ⟨false, "0:1: bad token".toList⟩ }

/-! ## `parseShaderSource` -/

theorem extractLine_eof (b : List Char) (h : (extractLine b).2.2 = true) :
    (extractLine b).1 = b ∧ (extractLine b).2.1 = [] ∧ '\n' ∉ b := by
  induction b with
  | nil => simp [extractLine]
  | cons c cs ih =>
    by_cases hc : c = '\n'
    · simp [extractLine, hc] at h
    · simp only [extractLine, hc, if_false] at h ⊢
      obtain ⟨h1, h2, h3⟩ := ih h
      refine ⟨by rw [h1], h2, ?_⟩
      simp only [List.mem_cons, not_or]
      exact ⟨fun e => hc e.symm, h3⟩

theorem extractLine_delim (b : List Char) (h : (extractLine b).2.2 = false) :
    b = (extractLine b).1 ++ '\n' :: (extractLine b).2.1 := by
  induction b with
  | nil => simp [extractLine] at h
  | cons c cs ih =>
    by_cases hc : c = '\n'
    · simp [extractLine, hc]
    · simp only [extractLine, hc, if_false] at h ⊢
      have := ih h
      simp only [List.cons_append]
      rw [← this]

theorem newlineTerminated_nil : newlineTerminated [] = [] := by
  simp [newlineTerminated]

theorem newlineTerminated_split (l r : List Char) :
    newlineTerminated (l ++ '\n' :: r) = l ++ '\n' :: newlineTerminated r := by
  cases r with
  | nil => simp [newlineTerminated]
  | cons x xs =>
    have h : (l ++ '\n' :: x :: xs).getLast? = (x :: xs).getLast? := by
      rw [List.getLast?_append, List.getLast?_cons_cons,
        List.getLast?_eq_getLast (x :: xs) (List.cons_ne_nil x xs)]
      rfl
    unfold newlineTerminated
    rw [h]
    by_cases hx : (x :: xs).getLast? = some '\n'
    · simp [hx]
    · simp [hx]

theorem newlineTerminated_noDelim (b : List Char) (hb : b ≠ []) (h : '\n' ∉ b) :
    newlineTerminated b = b ++ ['\n'] := by
  unfold newlineTerminated
  have : b.getLast? ≠ some '\n' := by
    intro e
    exact h (List.mem_of_getLast?_eq_some e)
  simp [hb, this]

theorem parseLoop_good (n : Nat) : ∀ (b line acc : List Char), b.length + 2 ≤ n →
    parseLoop n ⟨b, false, false⟩ line acc = some (acc ++ newlineTerminated b) := by
  induction n with
  | zero => intro b line acc h; omega
  | succ n ih =>
    intro b line acc hn
    cases b with
    | nil => simp [parseLoop, getline, extractLine, IfStream.ok, newlineTerminated]
    | cons c cs =>
      cases he : (extractLine (c :: cs)).2.2 with
      | true =>
        obtain ⟨h1, h2, h3⟩ := extractLine_eof (c :: cs) he
        obtain ⟨m, rfl⟩ : ∃ m, n = m + 1 := ⟨n - 1, by simp at hn; omega⟩
        rw [newlineTerminated_noDelim (c :: cs) (List.cons_ne_nil c cs) h3]
        simp [parseLoop, getline, IfStream.ok, he, h1, h2]
      | false =>
        have hsplit := extractLine_delim (c :: cs) he
        have hlen : (extractLine (c :: cs)).2.1.length + 2 ≤ n := by
          have := congrArg List.length hsplit
          simp at this hn
          omega
        have key := ih (extractLine (c :: cs)).2.1 (extractLine (c :: cs)).1
          (acc ++ ((extractLine (c :: cs)).1 ++ ['\n'])) hlen
        have hnt : newlineTerminated (c :: cs) =
            (extractLine (c :: cs)).1 ++ '\n' :: newlineTerminated (extractLine (c :: cs)).2.1 := by
          conv_lhs => rw [hsplit]
          exact newlineTerminated_split _ _
        rw [hnt]
        simp only [parseLoop, getline, IfStream.ok, he, Bool.or_self, Bool.false_and,
          Bool.not_false, if_true, Bool.false_eq_true, if_false]
        rw [key]
        simp

theorem parseLoop_failed (n : Nat) (b line acc : List Char) (e : Bool) :
    parseLoop (n + 1) ⟨b, e, true⟩ line acc = some acc := by
  simp [parseLoop, getline, IfStream.ok]

theorem parseShaderSource_eq (file : Option (List Char)) :
    parseShaderSource file = some (newlineTerminated (file.getD [])) := by
  cases file with
  | none => simp [parseShaderSource, IfStream.ofFile, parseLoop_failed, newlineTerminated]
  | some c =>
    simp only [parseShaderSource, IfStream.ofFile, Option.getD_some]
    rw [parseLoop_good _ c [] [] (le_refl _)]
    simp

theorem newlineTerminated_eq_nil (c : List Char) : newlineTerminated c = [] ↔ c = [] := by
  unfold newlineTerminated
  constructor
  · intro h
    split at h
    · exact h
    · simp at h
  · intro h; simp [h]

theorem linesOf_flatten (c : List Char) :
    ((linesOf c).map (fun l => l ++ ['\n'])).flatten = newlineTerminated c := by
  induction c with
  | nil => simp [linesOf, newlineTerminated]
  | cons x xs ih =>
    by_cases hx : x = '\n'
    · subst hx
      have := newlineTerminated_split [] xs
      simp only [List.nil_append] at this
      simp [linesOf, this, ih]
    · cases hl : linesOf xs with
      | nil =>
        rw [hl] at ih
        simp at ih
        have hxs : xs = [] := (newlineTerminated_eq_nil xs).1 ih
        subst hxs
        simp [linesOf, hx, newlineTerminated]
      | cons l ls =>
        rw [hl] at ih
        have hxs : xs ≠ [] := by
          intro e; subst e; simp [linesOf] at hl
        have hcons : newlineTerminated (x :: xs) = x :: newlineTerminated xs := by
          unfold newlineTerminated
          have : (x :: xs).getLast? = xs.getLast? := by
            cases xs with
            | nil => exact absurd rfl hxs
            | cons y ys => exact List.getLast?_cons_cons
          rw [this]
          by_cases hy : xs.getLast? = some '\n'
          · simp [hy]
          · simp [hy, hxs]
        rw [hcons, ← ih]
        simp [linesOf, hx, hl]


/-- C10: for every readable file content `c`, `parseShaderSource` returns
(within its bound) `c` itself when `c` is empty or ends in a newline and `c`
with one newline appended otherwise; this is the concatenation of the lines of
`c`, each followed by one newline. -/
theorem parseShaderSource_readable (c : List Char) :
    parseShaderSource (some c)
      = some (if c = [] ∨ c.getLast? = some '\n' then c else c ++ ['\n']) ∧
    parseShaderSource (some c)
      = some ((linesOf c).map fun l => l ++ ['\n']).flatten := by
  rw [linesOf_flatten, parseShaderSource_eq]
  exact ⟨rfl, rfl⟩

/-! ## The render loop -/

theorem initContext_ok (env : Env) (window : Nat) (hw : env.window = some window)
    (hg : env.gladVersion ≠ 0) :
    initContext env = .inr (window, contextCalls env window ++
      [.glViewport 0 0 800 600, .glfwSetFramebufferSizeCallback window]) := by
  simp [initContext, hw, hg]

theorem Square.main_ok (env : Env) (window : Nat) (inputs : List FrameInput)
    (hw : env.window = some window) (hg : env.gladVersion ≠ 0) :
    Square.main env inputs =
      { init := Square.banner ++ (contextCalls env window ++
          [.glViewport 0 0 800 600, .glfwSetFramebufferSizeCallback window]) ++
          Square.pipeline env (newlineTerminated (env.vertFile.getD []))
            (newlineTerminated (env.fragFile.getD [])),
        frames := (Square.renderLoop env window inputs ⟨env.shouldClose, true⟩).1,
        shutdown :=
          if (Square.renderLoop env window inputs ⟨env.shouldClose, true⟩).2
          then Square.shutdown env else [],
        exit :=
          if (Square.renderLoop env window inputs ⟨env.shouldClose, true⟩).2
          then some 0 else none } := by
  simp only [Square.main, initContext_ok env window hw hg, parseShaderSource_eq]
  split <;> rfl

theorem Triangle.triangle_main_ok (env : Env) (window : Nat) (inputs : List FrameInput)
    (hw : env.window = some window) (hg : env.gladVersion ≠ 0) :
    Triangle.main env inputs =
      { init := Triangle.banner ++ (contextCalls env window ++
          [.glViewport 0 0 800 600, .glfwSetFramebufferSizeCallback window]) ++
          Triangle.pipeline env,
        frames := (Triangle.renderLoop env window inputs env.shouldClose).1,
        shutdown :=
          if (Triangle.renderLoop env window inputs env.shouldClose).2
          then Triangle.shutdown env else [],
        exit :=
          if (Triangle.renderLoop env window inputs env.shouldClose).2
          then some 0 else none } := by
  simp only [Triangle.main, initContext_ok env window hw hg]
  split <;> rfl

theorem Square.main_failed (env : Env) (inputs : List FrameInput)
    (h : env.window = none ∨ env.gladVersion = 0) :
    (Square.main env inputs).exit = some (-1) ∧ (Square.main env inputs).frames = [] := by
  cases hw : env.window with
  | none => simp [Square.main, initContext, hw]
  | some w =>
    have hg : env.gladVersion = 0 := by
      rcases h with h | h
      · rw [hw] at h; cases h
      · exact h
    simp [Square.main, initContext, hw, hg]

theorem Square.renderLoop_finished (env : Env) (window : Nat) :
    ∀ (inputs : List FrameInput) (st : Square.LoopState),
      (Square.renderLoop env window inputs st).2 =
        (st.shouldClose || inputs.any fun i => i.escape || i.closeRequest) := by
  intro inputs
  induction inputs with
  | nil => intro st; simp [Square.renderLoop]
  | cons i rest ih =>
    intro st
    cases hs : st.shouldClose with
    | true => simp [Square.renderLoop, hs]
    | false =>
      simp only [Square.renderLoop, hs, Bool.false_eq_true, if_false, ih]
      cases he : i.escape <;> simp [Square.frame, processInput, he, hs]

theorem polygonModeAfter_append (m : PolygonMode) (a b : List Event) :
    polygonModeAfter m (a ++ b) = polygonModeAfter (polygonModeAfter m a) b := by
  simp [polygonModeAfter, List.foldl_append]

/-- C1: in the Space-key block of square.cpp, from a state in which `wireframe`
agrees with the current polygon mode `m` (as it does throughout the program),
one pass with Space down sets the other mode, one pass with Space up leaves the
mode alone, and two passes in a row with Space down bring the mode (and the
flag) back. -/
theorem toggle_block_flips_mode (window : Nat) (m : PolygonMode) (wireframe : Bool)
    (h : wireframe = true ↔ m = .LINE) :
    polygonModeAfter m (Square.toggleBlock window true wireframe).2 = m.flip ∧
    polygonModeAfter m (Square.toggleBlock window false wireframe).2 = m ∧
    polygonModeAfter m
      ((Square.toggleBlock window true wireframe).2 ++
       (Square.toggleBlock window true (Square.toggleBlock window true wireframe).1).2) = m ∧
    (Square.toggleBlock window true (Square.toggleBlock window true wireframe).1).1
      = wireframe := by
  cases m <;> cases wireframe <;>
    simp_all [Square.toggleBlock, polygonModeAfter, applyPolygonMode, PolygonMode.flip]

/-- The Space-key block from mode FILL with the flag false. -/
theorem toggle_block_flips_mode_witness :
    polygonModeAfter .FILL (Square.toggleBlock 1 true false).2 = PolygonMode.LINE ∧
    polygonModeAfter .FILL (Square.toggleBlock 1 false false).2 = .FILL ∧
    polygonModeAfter .FILL
      ((Square.toggleBlock 1 true false).2 ++
       (Square.toggleBlock 1 true (Square.toggleBlock 1 true false).1).2) = .FILL ∧
    (Square.toggleBlock 1 true (Square.toggleBlock 1 true false).1).1 = false :=
  toggle_block_flips_mode 1 .FILL false (by decide)

theorem Square.frame_mode (env : Env) (window : Nat) (i : FrameInput)
    (st : Square.LoopState) (m : PolygonMode) (h : st.wireframe = true ↔ m = .LINE) :
    polygonModeAfter m (Square.frame env window i st).2.events
      = (if i.space then m.flip else m) ∧
    polygonModeAfter m (beforeDraw (Square.frame env window i st).2.events)
      = (if i.space then m.flip else m) ∧
    ((Square.frame env window i st).2.wireframe = true ↔
      (if i.space then m.flip else m) = .LINE) ∧
    (Square.frame env window i st).1.wireframe = (Square.frame env window i st).2.wireframe := by
  obtain ⟨e, s, c⟩ := i
  obtain ⟨sc, w⟩ := st
  cases m <;> cases w <;> cases e <;> cases s <;>
    simp_all [Square.frame, Square.toggleBlock, processInput, Square.drawBlock, beforeDraw,
      isDrawCall, polygonModeAfter, applyPolygonMode, PolygonMode.flip, List.takeWhile]

theorem Square.renderLoop_mode (env : Env) (window : Nat) :
    ∀ (inputs : List FrameInput) (st : Square.LoopState) (m : PolygonMode) (k : Nat)
      (fk : Square.Frame),
      (st.wireframe = true ↔ m = .LINE) →
      (Square.renderLoop env window inputs st).1[k]? = some fk →
      (fk.wireframe = true ↔
        polygonModeAfter m
          ((((Square.renderLoop env window inputs st).1.take k).map
            fun f => f.events).flatten ++ beforeDraw fk.events) = .LINE) ∧
      (polygonModeAfter m
          ((((Square.renderLoop env window inputs st).1.take k).map
            fun f => f.events).flatten ++ beforeDraw fk.events) = .LINE ↔
        (m = .LINE ↔ Even ((inputs.take (k + 1)).countP fun i => i.space))) := by
  intro inputs
  induction inputs with
  | nil => intro st m k fk _ hk; simp [Square.renderLoop] at hk
  | cons i rest ih =>
    intro st m k fk hcoh hk
    cases hs : st.shouldClose with
    | true => simp [Square.renderLoop, hs] at hk
    | false =>
      simp only [Square.renderLoop, hs, Bool.false_eq_true, if_false] at hk ⊢
      obtain ⟨h1, h2, h3, h4⟩ := Square.frame_mode env window i st m hcoh
      cases k with
      | zero =>
        simp only [List.getElem?_cons_zero, Option.some.injEq] at hk
        subst hk
        simp only [List.take_zero, List.map_nil, List.flatten_nil, List.nil_append, h2,
          Nat.zero_add, List.take_succ_cons, List.countP_cons, List.countP_nil]
        refine ⟨h3, ?_⟩
        cases hsp : i.space <;> cases m <;> simp [PolygonMode.flip]
      | succ k =>
        simp only [List.getElem?_cons_succ] at hk
        have hcoh' : (Square.frame env window i st).1.wireframe = true ↔
            (if i.space then m.flip else m) = .LINE := by rw [h4]; exact h3
        obtain ⟨r1, r2⟩ := ih (Square.frame env window i st).1
          (if i.space then m.flip else m) k fk hcoh' hk
        rw [polygonModeAfter_append] at r1 r2
        simp only [List.take_succ_cons, List.map_cons, List.flatten_cons, List.append_assoc,
          polygonModeAfter_append, h1, List.countP_cons]
        refine ⟨r1, r2.trans ?_⟩
        cases hsp : i.space <;> cases m <;>
          simp [PolygonMode.flip, Nat.even_add_one]

theorem Square.pipeline_mode (env : Env) (m : PolygonMode) (v f : List Char)
    (evs : List Event) :
    polygonModeAfter m (evs ++ Square.pipeline env v f) = .LINE := by
  simp [Square.pipeline, polygonModeAfter, List.foldl_append, applyPolygonMode]

/-- C9: in square.cpp, whatever the polygon mode `m0` before `main`, the mode
after initialisation is LINE and the loop starts with `wireframe = true`; in
every pass `k` of the loop, `wireframe` after the Space-key block is true
exactly when the polygon mode last set before the draw call of that pass is
LINE, and that mode is LINE exactly when Space was sampled as pressed in an
even number of the frames `0..k`. -/
theorem wireframe_flag_tracks_polygon_mode (env : Env) (window : Nat)
    (inputs : List FrameInput) (m0 : PolygonMode)
    (hw : env.window = some window) (hg : env.gladVersion ≠ 0) :
    polygonModeAfter m0 (Square.main env inputs).init = .LINE ∧
    (Square.main env inputs).frames
      = (Square.renderLoop env window inputs ⟨env.shouldClose, true⟩).1 ∧
    ∀ (k : Nat) (fk : Square.Frame), (Square.main env inputs).frames[k]? = some fk →
      (fk.wireframe = true ↔
        polygonModeAfter m0
          ((Square.main env inputs).init ++
            ((((Square.main env inputs).frames.take k).map fun f => f.events).flatten ++
              beforeDraw fk.events)) = .LINE) ∧
      (polygonModeAfter m0
          ((Square.main env inputs).init ++
            ((((Square.main env inputs).frames.take k).map fun f => f.events).flatten ++
              beforeDraw fk.events)) = .LINE ↔
        Even ((inputs.take (k + 1)).countP fun i => i.space)) := by
  rw [Square.main_ok env window inputs hw hg]
  have hinit := Square.pipeline_mode env m0 (newlineTerminated (env.vertFile.getD []))
    (newlineTerminated (env.fragFile.getD []))
    (Square.banner ++ (contextCalls env window ++
      [.glViewport 0 0 800 600, .glfwSetFramebufferSizeCallback window]))
  refine ⟨hinit, rfl, ?_⟩
  intro k fk hk
  have h := Square.renderLoop_mode env window inputs ⟨env.shouldClose, true⟩ .LINE k fk
    (by simp) hk
  simp only [polygonModeAfter_append _ (_ ++ Square.pipeline env _ _), hinit]
  simpa using h

/-- Space down in frames 0 and 2, starting from mode FILL. -/
theorem wireframe_flag_tracks_polygon_mode_witness :
    polygonModeAfter .FILL (Square.main sampleEnv [spaceDown, idle, spaceDown]).init = .LINE ∧
    (Square.main sampleEnv [spaceDown, idle, spaceDown]).frames
      = (Square.renderLoop sampleEnv 1 [spaceDown, idle, spaceDown] ⟨false, true⟩).1 ∧
    ∀ (k : Nat) (fk : Square.Frame),
      (Square.main sampleEnv [spaceDown, idle, spaceDown]).frames[k]? = some fk →
      (fk.wireframe = true ↔
        polygonModeAfter .FILL
          ((Square.main sampleEnv [spaceDown, idle, spaceDown]).init ++
            ((((Square.main sampleEnv [spaceDown, idle, spaceDown]).frames.take k).map
              fun f => f.events).flatten ++ beforeDraw fk.events)) = .LINE) ∧
      (polygonModeAfter .FILL
          ((Square.main sampleEnv [spaceDown, idle, spaceDown]).init ++
            ((((Square.main sampleEnv [spaceDown, idle, spaceDown]).frames.take k).map
              fun f => f.events).flatten ++ beforeDraw fk.events)) = .LINE ↔
        Even (([spaceDown, idle, spaceDown].take (k + 1)).countP fun i => i.space)) :=
  wireframe_flag_tracks_polygon_mode sampleEnv 1 [spaceDown, idle, spaceDown] .FILL rfl
    (by decide)

/-! ## Draw calls -/

theorem Square.renderLoop_mem (env : Env) (window : Nat) :
    ∀ (inputs : List FrameInput) (st : Square.LoopState),
      ∀ f ∈ (Square.renderLoop env window inputs st).1,
        ∃ i st', f = (Square.frame env window i st').2 := by
  intro inputs
  induction inputs with
  | nil => intro st f hf; simp [Square.renderLoop] at hf
  | cons i rest ih =>
    intro st f hf
    cases hs : st.shouldClose with
    | true => simp [Square.renderLoop, hs] at hf
    | false =>
      simp only [Square.renderLoop, hs, Bool.false_eq_true, if_false, List.mem_cons] at hf
      rcases hf with rfl | hf
      · exact ⟨i, st, rfl⟩
      · exact ih _ f hf

theorem Square.frame_drawCalls (env : Env) (window : Nat) (i : FrameInput)
    (st : Square.LoopState) :
    (Square.frame env window i st).2.events.filter isDrawCall
      = [.glDrawElements_TRIANGLES 12 0] ∧
    Event.glUseProgram env.shaderProgram ∈ (Square.frame env window i st).2.events := by
  obtain ⟨e, s, c⟩ := i
  obtain ⟨sc, w⟩ := st
  cases e <;> cases s <;> cases w <;>
    simp [Square.frame, Square.toggleBlock, processInput, Square.drawBlock, isDrawCall,
      List.filter]

theorem Square.frames_init_ok (env : Env) (inputs : List FrameInput)
    (h : (Square.main env inputs).frames ≠ []) :
    ∃ window, env.window = some window ∧ env.gladVersion ≠ 0 := by
  cases hw : env.window with
  | none => exact absurd (Square.main_failed env inputs (Or.inl hw)).2 h
  | some w =>
    refine ⟨w, rfl, fun hg => ?_⟩
    exact absurd (Square.main_failed env inputs (Or.inr hg)).2 h

/-- C3: every pass of square.cpp's render loop makes exactly one draw call,
`glDrawElements(GL_TRIANGLES, 12, GL_UNSIGNED_INT, 0)`; 12 is the number of
entries of `indices`, which was uploaded whole to the element buffer, over the
5 vertices (3 coordinates each) uploaded to the vertex buffer; every index
names one of the 5 vertices and the 12 indices assemble into 4 triangles. -/
theorem one_draw_call_of_twelve_indices (env : Env) (inputs : List FrameInput)
    (f : Square.Frame) (hf : f ∈ (Square.main env inputs).frames) :
    f.events.filter isDrawCall = [.glDrawElements_TRIANGLES 12 0] ∧
    Square.indices.length = 12 ∧
    Event.glBufferData .ELEMENT_ARRAY_BUFFER (12 * sizeofScalar) (.uints Square.indices)
      ∈ (Square.main env inputs).init ∧
    Square.vertices.length = 5 * 3 ∧
    Event.glBufferData .ARRAY_BUFFER (5 * 3 * sizeofScalar) (.floats Square.vertices)
      ∈ (Square.main env inputs).init ∧
    (∀ i ∈ Square.indices, i < 5) ∧
    (assembleTriangles (Square.indices.take 12)).length = 4 := by
  obtain ⟨window, hw, hg⟩ := Square.frames_init_ok env inputs (List.ne_nil_of_mem hf)
  rw [Square.main_ok env window inputs hw hg] at hf ⊢
  obtain ⟨i, st, rfl⟩ := Square.renderLoop_mem env window inputs _ f hf
  refine ⟨(Square.frame_drawCalls env window i st).1, rfl, ?_, rfl, ?_, by decide, rfl⟩
  · simp [Square.pipeline, Square.geometry, Square.indices]
  · simp [Square.pipeline, Square.geometry, Square.vertices]

/-- The first pass of a run with Space down, then Escape. -/
theorem one_draw_call_of_twelve_indices_witness :
    (Square.frame sampleEnv 1 spaceDown ⟨false, true⟩).2.events.filter isDrawCall
      = [.glDrawElements_TRIANGLES 12 0] ∧
    Square.indices.length = 12 ∧
    Event.glBufferData .ELEMENT_ARRAY_BUFFER (12 * sizeofScalar) (.uints Square.indices)
      ∈ (Square.main sampleEnv [spaceDown, escapeDown]).init ∧
    Square.vertices.length = 5 * 3 ∧
    Event.glBufferData .ARRAY_BUFFER (5 * 3 * sizeofScalar) (.floats Square.vertices)
      ∈ (Square.main sampleEnv [spaceDown, escapeDown]).init ∧
    (∀ i ∈ Square.indices, i < 5) ∧
    (assembleTriangles (Square.indices.take 12)).length = 4 :=
  one_draw_call_of_twelve_indices sampleEnv [spaceDown, escapeDown]
    (Square.frame sampleEnv 1 spaceDown ⟨false, true⟩).2 (by decide)

/-! ## Exit status -/

/-- C7: `main` of square.cpp returns -1, a non-zero status, and never enters
the render loop when `glfwCreateWindow` yields no window (and so no context)
or `gladLoadGL` fails to load the driver entry points; otherwise it returns 0
as soon as its loop sees the should-close flag set, and has not returned while
the flag stays clear. -/
theorem exit_status_of_main (env : Env) (inputs : List FrameInput) :
    (env.window = none ∨ env.gladVersion = 0 →
      (Square.main env inputs).exit = some (-1) ∧ (-1 : Int) ≠ 0 ∧
      (Square.main env inputs).frames = []) ∧
    (env.window ≠ none → env.gladVersion ≠ 0 →
      (closes env inputs = true → (Square.main env inputs).exit = some 0) ∧
      (closes env inputs = false → (Square.main env inputs).exit = none)) := by
  refine ⟨fun h => ?_, fun hw hg => ?_⟩
  · exact ⟨(Square.main_failed env inputs h).1, by decide, (Square.main_failed env inputs h).2⟩
  · obtain ⟨window, hw'⟩ := Option.ne_none_iff_exists'.1 hw
    rw [Square.main_ok env window inputs hw' hg]
    simp only [Square.renderLoop_finished, closes]
    constructor <;> intro h <;> simp [h]

/-- No window gives -1 and no frame; Escape in the second frame gives 0. -/
theorem exit_status_of_main_witness :
    ((Square.main { sampleEnv with window := none } [idle]).exit = some (-1) ∧
      (-1 : Int) ≠ 0 ∧
      (Square.main { sampleEnv with window := none } [idle]).frames = []) ∧
    (Square.main sampleEnv [idle, escapeDown]).exit = some 0 :=
  ⟨(exit_status_of_main { sampleEnv with window := none } [idle]).1 (Or.inl rfl),
   ((exit_status_of_main sampleEnv [idle, escapeDown]).2 (by decide) (by decide)).1 rfl⟩

/-! ## Shader status -/

theorem Square.renderLoop_allSucceed (env : Env) (window : Nat) :
    ∀ (inputs : List FrameInput) (st : Square.LoopState),
      Square.renderLoop env.allSucceed window inputs st
        = Square.renderLoop env window inputs st := by
  intro inputs
  induction inputs with
  | nil => intro st; rfl
  | cons i rest ih =>
    intro st
    simp only [Square.renderLoop, ih]
    rfl

theorem Triangle.triangle_renderLoop_allSucceed (env : Env) (window : Nat) :
    ∀ (inputs : List FrameInput) (sc : Bool),
      Triangle.renderLoop env.allSucceed window inputs sc
        = Triangle.renderLoop env window inputs sc := by
  intro inputs
  induction inputs with
  | nil => intro sc; rfl
  | cons i rest ih =>
    intro sc
    simp only [Triangle.renderLoop, ih]
    rfl

theorem Triangle.triangle_renderLoop_mem (env : Env) (window : Nat) :
    ∀ (inputs : List FrameInput) (sc : Bool),
      ∀ f ∈ (Triangle.renderLoop env window inputs sc).1,
        ∃ i sc', f = (Triangle.frame env window i sc').2 := by
  intro inputs
  induction inputs with
  | nil => intro sc f hf; simp [Triangle.renderLoop] at hf
  | cons i rest ih =>
    intro sc f hf
    cases sc with
    | true => simp [Triangle.renderLoop] at hf
    | false =>
      simp only [Triangle.renderLoop, Bool.false_eq_true, if_false, List.mem_cons] at hf
      rcases hf with rfl | hf
      · exact ⟨i, false, rfl⟩
      · exact ih _ f hf

theorem Square.init_not_diagnostic (env : Env) (evs : List Event) (v f : List Char) :
    (evs ++ Square.pipeline env v f).filter (fun e => !isDiagnostic e)
      = (evs ++ Square.pipeline env.allSucceed v f).filter (fun e => !isDiagnostic e) := by
  cases hv : env.vertexCompile.status <;> cases hf : env.fragmentCompile.status <;>
    cases hl : env.link.status <;>
    simp [Square.pipeline, Square.geometry, Square.compileVertex, Square.compileFragment,
      Square.linkProgram, Env.allSucceed, isDiagnostic, List.filter_append, List.filter, hv, hf, hl]

theorem Triangle.triangle_init_not_diagnostic (env : Env) (evs : List Event) :
    (evs ++ Triangle.pipeline env).filter (fun e => !isDiagnostic e)
      = (evs ++ Triangle.pipeline env.allSucceed).filter (fun e => !isDiagnostic e) := by
  cases hv : env.vertexCompile.status <;> cases hl : env.link.status <;>
    simp [Triangle.pipeline, Triangle.geometry, Triangle.compileVertex,
      Triangle.compileFragment, Triangle.linkProgram, Env.allSucceed, isDiagnostic,
      List.filter_append, List.filter, hv, hl]

theorem Square.attach_link_infix (env : Env) (evs : List Event) (v f : List Char) :
    [ Event.glAttachShader env.shaderProgram env.vertexShader,
      Event.glAttachShader env.shaderProgram env.fragmentShader,
      Event.glLinkProgram env.shaderProgram ] <:+: evs ++ Square.pipeline env v f := by
  refine ⟨evs ++ ([ .cout (.lit "VERTEX CODE: "), .cout (.text v), .cout (.lit "\n"),
      .cout (.lit "FRAGMENT CODE: "), .cout (.text f), .cout (.lit "\n") ] ++
      Square.geometry env ++ Square.compileVertex env v ++ Square.compileFragment env f ++
      [.glCreateProgram env.shaderProgram]),
    (Square.linkProgram env).drop 4 ++
      [ .glUseProgram env.shaderProgram, .glDeleteShader env.vertexShader,
        .glDeleteShader env.fragmentShader, .glPolygonMode .LINE ], ?_⟩
  simp [Square.pipeline, Square.linkProgram]

theorem Triangle.triangle_attach_link_infix (env : Env) (evs : List Event) :
    [ Event.glAttachShader env.shaderProgram env.vertexShader,
      Event.glAttachShader env.shaderProgram env.fragmentShader,
      Event.glLinkProgram env.shaderProgram ] <:+: evs ++ Triangle.pipeline env := by
  refine ⟨evs ++ (Triangle.geometry env ++ Triangle.compileVertex env ++
      Triangle.compileFragment env ++ [.glCreateProgram env.shaderProgram]),
    (Triangle.linkProgram env).drop 4 ++
      [ .glUseProgram env.shaderProgram, .glDeleteShader env.vertexShader,
        .glDeleteShader env.fragmentShader,
        .glVertexAttribPointer 0 3 false (3 * sizeofScalar) 0,
        .glEnableVertexAttribArray 0 ], ?_⟩
  simp [Triangle.pipeline, Triangle.linkProgram]

/-- C4: in both programs, once window and entry points are there, whatever the
two compile statuses and the link status are: both stage objects are attached
and the link is attempted; a non-empty input sequence with the should-close
flag clear leads into the render loop; every pass uses the program handle
`glCreateProgram` returned; and the passes of the loop, the shutdown calls, the
exit status and all non-diagnostic calls of the start-up are the same as in the
run where all three statuses are success. -/
theorem rendering_not_gated_on_shader_status (env : Env) (window : Nat)
    (inputs : List FrameInput)
    (hw : env.window = some window) (hg : env.gladVersion ≠ 0) :
    ([ Event.glAttachShader env.shaderProgram env.vertexShader,
       Event.glAttachShader env.shaderProgram env.fragmentShader,
       Event.glLinkProgram env.shaderProgram ] <:+: (Square.main env inputs).init ∧
     (env.shouldClose = false → inputs ≠ [] → (Square.main env inputs).frames ≠ []) ∧
     (∀ fr ∈ (Square.main env inputs).frames,
        Event.glUseProgram env.shaderProgram ∈ fr.events) ∧
     (Square.main env inputs).frames = (Square.main env.allSucceed inputs).frames ∧
     (Square.main env inputs).shutdown = (Square.main env.allSucceed inputs).shutdown ∧
     (Square.main env inputs).exit = (Square.main env.allSucceed inputs).exit ∧
     (Square.main env inputs).init.filter (fun e => !isDiagnostic e)
       = (Square.main env.allSucceed inputs).init.filter (fun e => !isDiagnostic e)) ∧
    ([ Event.glAttachShader env.shaderProgram env.vertexShader,
       Event.glAttachShader env.shaderProgram env.fragmentShader,
       Event.glLinkProgram env.shaderProgram ] <:+: (Triangle.main env inputs).init ∧
     (env.shouldClose = false → inputs ≠ [] → (Triangle.main env inputs).frames ≠ []) ∧
     (∀ fr ∈ (Triangle.main env inputs).frames,
        Event.glUseProgram env.shaderProgram ∈ fr) ∧
     (Triangle.main env inputs).frames = (Triangle.main env.allSucceed inputs).frames ∧
     (Triangle.main env inputs).shutdown = (Triangle.main env.allSucceed inputs).shutdown ∧
     (Triangle.main env inputs).exit = (Triangle.main env.allSucceed inputs).exit ∧
     (Triangle.main env inputs).init.filter (fun e => !isDiagnostic e)
       = (Triangle.main env.allSucceed inputs).init.filter (fun e => !isDiagnostic e)) := by
  have hw' : env.allSucceed.window = some window := hw
  have hg' : env.allSucceed.gladVersion ≠ 0 := hg
  constructor
  · rw [Square.main_ok env window inputs hw hg,
      Square.main_ok env.allSucceed window inputs hw' hg']
    simp only [Square.renderLoop_allSucceed]
    refine ⟨Square.attach_link_infix env _ _ _, ?_, ?_, rfl, rfl, rfl, ?_⟩
    · intro h0 hin
      cases inputs with
      | nil => exact absurd rfl hin
      | cons i rest => simp [Square.renderLoop, h0]
    · intro fr hfr
      obtain ⟨i, st, rfl⟩ := Square.renderLoop_mem env window inputs _ fr hfr
      exact (Square.frame_drawCalls env window i st).2
    · exact Square.init_not_diagnostic env _ _ _
  · rw [Triangle.triangle_main_ok env window inputs hw hg,
      Triangle.triangle_main_ok env.allSucceed window inputs hw' hg']
    simp only [Triangle.triangle_renderLoop_allSucceed]
    refine ⟨Triangle.triangle_attach_link_infix env _, ?_, ?_, rfl, rfl, rfl, ?_⟩
    · intro h0 hin
      cases inputs with
      | nil => exact absurd rfl hin
      | cons i rest => simp [Triangle.renderLoop, h0]
    · intro fr hfr
      obtain ⟨i, sc, rfl⟩ := Triangle.triangle_renderLoop_mem env window inputs _ fr hfr
      cases he : i.escape <;> simp [Triangle.frame, processInput, he]
    · exact Triangle.triangle_init_not_diagnostic env _

/-- A run with a failing fragment compile and a failing link. -/
theorem rendering_not_gated_on_shader_status_witness :
    ([ Event.glAttachShader 6 4, Event.glAttachShader 6 5, Event.glLinkProgram 6 ]
        <:+: (Square.main failingEnv [spaceDown, escapeDown]).init ∧
     (failingEnv.shouldClose = false → [spaceDown, escapeDown] ≠ [] →
        (Square.main failingEnv [spaceDown, escapeDown]).frames ≠ []) ∧
     (∀ fr ∈ (Square.main failingEnv [spaceDown, escapeDown]).frames,
        Event.glUseProgram 6 ∈ fr.events) ∧
     (Square.main failingEnv [spaceDown, escapeDown]).frames
       = (Square.main failingEnv.allSucceed [spaceDown, escapeDown]).frames ∧
     (Square.main failingEnv [spaceDown, escapeDown]).shutdown
       = (Square.main failingEnv.allSucceed [spaceDown, escapeDown]).shutdown ∧
     (Square.main failingEnv [spaceDown, escapeDown]).exit
       = (Square.main failingEnv.allSucceed [spaceDown, escapeDown]).exit ∧
     (Square.main failingEnv [spaceDown, escapeDown]).init.filter (fun e => !isDiagnostic e)
       = (Square.main failingEnv.allSucceed [spaceDown, escapeDown]).init.filter
          (fun e => !isDiagnostic e)) ∧
    ([ Event.glAttachShader 6 4, Event.glAttachShader 6 5, Event.glLinkProgram 6 ]
        <:+: (Triangle.main failingEnv [spaceDown, escapeDown]).init ∧
     (failingEnv.shouldClose = false → [spaceDown, escapeDown] ≠ [] →
        (Triangle.main failingEnv [spaceDown, escapeDown]).frames ≠ []) ∧
     (∀ fr ∈ (Triangle.main failingEnv [spaceDown, escapeDown]).frames,
        Event.glUseProgram 6 ∈ fr) ∧
     (Triangle.main failingEnv [spaceDown, escapeDown]).frames
       = (Triangle.main failingEnv.allSucceed [spaceDown, escapeDown]).frames ∧
     (Triangle.main failingEnv [spaceDown, escapeDown]).shutdown
       = (Triangle.main failingEnv.allSucceed [spaceDown, escapeDown]).shutdown ∧
     (Triangle.main failingEnv [spaceDown, escapeDown]).exit
       = (Triangle.main failingEnv.allSucceed [spaceDown, escapeDown]).exit ∧
     (Triangle.main failingEnv [spaceDown, escapeDown]).init.filter (fun e => !isDiagnostic e)
       = (Triangle.main failingEnv.allSucceed [spaceDown, escapeDown]).init.filter
          (fun e => !isDiagnostic e)) :=
  rendering_not_gated_on_shader_status failingEnv 1 [spaceDown, escapeDown] rfl (by decide)

/-! ## Diagnostics -/

/-- C5 at failing inputs.  With a failing link, square.cpp prints its
`LINK_FAILED` line followed by the number `GL_LINK_STATUS` (35714), not the log
the driver gave, although it has just fetched that log; with a failing fragment
compile and a failing link, triangle.cpp prints nothing beyond its banner.  By
contrast a failing vertex compile is printed with its log by both programs. -/
theorem failed_link_log_never_printed :
    stdout (Square.main failingEnv [escapeDown]).init =
      [ .lit "square", .lit "\n",
        .lit "VERTEX CODE: ", .text "void main()\n".toList, .lit "\n",
        .lit "FRAGMENT CODE: ", .text "void main()\n".toList, .lit "\n",
        .lit "ERROR::SHADER::FRAGMENT::COMPILATION_FAILED\n",
        .text "0:1: syntax error".toList, .lit "\n",
        .lit "ERROR::PROGRAM::LINK_FAILED\n", .num 35714, .lit "\n" ] ∧
    Event.glGetProgramInfoLog 6 512 "link: unresolved".toList
      ∈ (Square.main failingEnv [escapeDown]).init ∧
    Out.text "link: unresolved".toList ∉ stdout (Square.main failingEnv [escapeDown]).init ∧
    failingEnv.fragmentCompile.status = false ∧ failingEnv.link.status = false ∧
    stdout (Triangle.main failingEnv [escapeDown]).init = [.lit "hello", .lit "\n"] ∧
    Out.text "0:1: bad token".toList ∈ stdout (Square.main vertexFailingEnv [escapeDown]).init ∧
    Out.text "0:1: bad token".toList
      ∈ stdout (Triangle.main vertexFailingEnv [escapeDown]).init := by
  decide

/-! ## Unreadable shader files -/

theorem Square.renderLoop_congr (e1 e2 : Env) (window : Nat)
    (hp : e1.shaderProgram = e2.shaderProgram) (ha : e1.VAO = e2.VAO) :
    ∀ (inputs : List FrameInput) (st : Square.LoopState),
      Square.renderLoop e1 window inputs st = Square.renderLoop e2 window inputs st := by
  intro inputs
  induction inputs with
  | nil => intro st; rfl
  | cons i rest ih =>
    intro st
    simp only [Square.renderLoop, Square.frame, Square.drawBlock, hp, ha, ih]

theorem Square.main_missingAsEmpty (env : Env) (inputs : List FrameInput) :
    Square.main env inputs = Square.main env.missingAsEmpty inputs := by
  have hv : parseShaderSource env.missingAsEmpty.vertFile = parseShaderSource env.vertFile := by
    rw [parseShaderSource_eq, parseShaderSource_eq]; rfl
  have hf : parseShaderSource env.missingAsEmpty.fragFile = parseShaderSource env.fragFile := by
    rw [parseShaderSource_eq, parseShaderSource_eq]; rfl
  have hi : initContext env.missingAsEmpty = initContext env := rfl
  have hl : ∀ window st, Square.renderLoop env.missingAsEmpty window inputs st
      = Square.renderLoop env window inputs st :=
    fun window st => Square.renderLoop_congr env.missingAsEmpty env window rfl rfl inputs st
  unfold Square.main
  rw [hv, hf, hi]
  simp only [hl]
  rfl

/-- C6 as stated fails: with a vertex shader file that cannot be opened,
square.cpp still runs its render loop (here two passes) and returns 0. -/
theorem missing_shader_file_still_renders :
    noVertFile.vertFile = none ∧
    (Square.main noVertFile [idle, escapeDown]).frames.length = 2 ∧
    (Square.main noVertFile [idle, escapeDown]).exit = some 0 := by
  decide

/-- C6 amended: a shader file that cannot be opened makes `parseShaderSource`
return the empty string, and square.cpp then runs exactly as if that file were
empty: the empty source is handed to the compiler and, with window and entry
points there, the should-close flag clear and at least one frame of input, the
render loop is entered. -/
theorem unreadable_shader_file_reads_as_empty (env : Env) (window : Nat)
    (inputs : List FrameInput)
    (hmiss : env.vertFile = none ∨ env.fragFile = none)
    (hw : env.window = some window) (hg : env.gladVersion ≠ 0)
    (h0 : env.shouldClose = false) (hin : inputs ≠ []) :
    parseShaderSource none = some [] ∧
    Square.main env inputs = Square.main env.missingAsEmpty inputs ∧
    (env.vertFile = none ∧
        Event.glShaderSource env.vertexShader [] ∈ (Square.main env inputs).init ∨
      env.fragFile = none ∧
        Event.glShaderSource env.fragmentShader [] ∈ (Square.main env inputs).init) ∧
    (Square.main env inputs).frames ≠ [] := by
  refine ⟨by decide, Square.main_missingAsEmpty env inputs, ?_, ?_⟩
  · rcases hmiss with hv | hf
    · refine Or.inl ⟨hv, ?_⟩
      rw [Square.main_ok env window inputs hw hg, hv]
      simp [Square.pipeline, Square.compileVertex, newlineTerminated, c_str]
    · refine Or.inr ⟨hf, ?_⟩
      rw [Square.main_ok env window inputs hw hg, hf]
      simp [Square.pipeline, Square.compileFragment, newlineTerminated, c_str]
  · rw [Square.main_ok env window inputs hw hg]
    cases inputs with
    | nil => exact absurd rfl hin
    | cons i rest => simp [Square.renderLoop, h0]

/-- A run without a readable vertex shader file. -/
theorem unreadable_shader_file_reads_as_empty_witness :
    parseShaderSource none = some [] ∧
    Square.main noVertFile [idle] = Square.main noVertFile.missingAsEmpty [idle] ∧
    (noVertFile.vertFile = none ∧
        Event.glShaderSource noVertFile.vertexShader [] ∈ (Square.main noVertFile [idle]).init ∨
      noVertFile.fragFile = none ∧
        Event.glShaderSource noVertFile.fragmentShader []
          ∈ (Square.main noVertFile [idle]).init) ∧
    (Square.main noVertFile [idle]).frames ≠ [] :=
  unreadable_shader_file_reads_as_empty noVertFile 1 [idle] (Or.inl rfl) rfl (by decide) rfl
    (by decide)

/-! ## Shutdown order -/

theorem Square.exit_zero (env : Env) (inputs : List FrameInput)
    (h : (Square.main env inputs).exit = some 0) :
    ∃ window, env.window = some window ∧ env.gladVersion ≠ 0 ∧
      (Square.renderLoop env window inputs ⟨env.shouldClose, true⟩).2 = true := by
  cases hw : env.window with
  | none =>
    rw [(Square.main_failed env inputs (Or.inl hw)).1] at h
    cases h
  | some w =>
    by_cases hg : env.gladVersion = 0
    · rw [(Square.main_failed env inputs (Or.inr hg)).1] at h
      cases h
    · refine ⟨w, rfl, hg, ?_⟩
      rw [Square.main_ok env w inputs hw hg] at h
      cases hl : (Square.renderLoop env w inputs ⟨env.shouldClose, true⟩).2 with
      | true => rfl
      | false => simp [hl] at h

theorem Triangle.triangle_exit_zero (env : Env) (inputs : List FrameInput)
    (h : (Triangle.main env inputs).exit = some 0) :
    ∃ window, env.window = some window ∧ env.gladVersion ≠ 0 ∧
      (Triangle.renderLoop env window inputs env.shouldClose).2 = true := by
  cases hw : env.window with
  | none => simp [Triangle.main, initContext, hw] at h
  | some w =>
    by_cases hg : env.gladVersion = 0
    · simp [Triangle.main, initContext, hw, hg] at h
    · refine ⟨w, rfl, hg, ?_⟩
      rw [Triangle.triangle_main_ok env w inputs hw hg] at h
      cases hl : (Triangle.renderLoop env w inputs env.shouldClose).2 with
      | true => rfl
      | false => simp [hl] at h

theorem Square.init_acquires (env : Env) (window : Nat) (v f : List Char)
    (hw : env.window = some window) :
    (Square.banner ++ (contextCalls env window ++
        [Event.glViewport 0 0 800 600, Event.glfwSetFramebufferSizeCallback window]) ++
      Square.pipeline env v f).filter isAcquire =
    [ .glfwCreateWindow 800 600 "LearnOpenGL" (some window),
      .glGenVertexArrays 1 env.VAO, .glGenBuffers 1 env.VBO, .glGenBuffers 1 env.EBO,
      .glCreateProgram env.shaderProgram ] := by
  cases hv : env.vertexCompile.status <;> cases hf : env.fragmentCompile.status <;>
    cases hl : env.link.status <;>
    simp [Square.banner, contextCalls, windowCalls, Square.pipeline, Square.geometry,
      Square.compileVertex, Square.compileFragment, Square.linkProgram, isAcquire,
      isContextAcquire, isGeometryAcquire, isProgramAcquire, List.filter_append, List.filter,
      hv, hf, hl, hw]

theorem Triangle.triangle_init_acquires (env : Env) (window : Nat)
    (hw : env.window = some window) :
    (Triangle.banner ++ (contextCalls env window ++
        [Event.glViewport 0 0 800 600, Event.glfwSetFramebufferSizeCallback window]) ++
      Triangle.pipeline env).filter isAcquire =
    [ .glfwCreateWindow 800 600 "LearnOpenGL" (some window),
      .glGenVertexArrays 1 env.VAO, .glGenBuffers 1 env.VBO,
      .glCreateProgram env.shaderProgram ] := by
  cases hv : env.vertexCompile.status <;> cases hl : env.link.status <;>
    simp [Triangle.banner, contextCalls, windowCalls, Triangle.pipeline, Triangle.geometry,
      Triangle.compileVertex, Triangle.compileFragment, Triangle.linkProgram, isAcquire,
      isContextAcquire, isGeometryAcquire, isProgramAcquire, List.filter_append, List.filter,
      hv, hl, hw]

/-- C8 as stated fails: on a normal shutdown of square.cpp and of triangle.cpp
the program object is released after the geometry objects, not before them. -/
theorem program_released_after_geometry :
    (Square.main sampleEnv [escapeDown]).exit = some 0 ∧
    (Square.main sampleEnv [escapeDown]).shutdown =
      [ .glDeleteVertexArrays 1 1, .glDeleteBuffers 1 2, .glDeleteBuffers 1 3,
        .glDeleteProgram 6, .glfwTerminate ] ∧
    allBefore isProgramRelease isGeometryRelease
      (Square.main sampleEnv [escapeDown]).shutdown = false ∧
    (Triangle.main sampleEnv [escapeDown]).exit = some 0 ∧
    allBefore isProgramRelease isGeometryRelease
      (Triangle.main sampleEnv [escapeDown]).shutdown = false := by
  decide

/-- C8 amended: on a normal shutdown both programs release the geometry
objects first (vertex array, vertex buffer, and in square.cpp the index
buffer), then the program, then the context.  The start-up acquired the
context first, then the geometry in that same order, then the program: geometry
and program are released in the order of their acquisition, and the context,
acquired first, is released last. -/
theorem shutdown_releases_geometry_then_program (env : Env) (inputs : List FrameInput)
    (hs : (Square.main env inputs).exit = some 0)
    (ht : (Triangle.main env inputs).exit = some 0) :
    ((Square.main env inputs).shutdown =
        [ .glDeleteVertexArrays 1 env.VAO, .glDeleteBuffers 1 env.VBO,
          .glDeleteBuffers 1 env.EBO, .glDeleteProgram env.shaderProgram, .glfwTerminate ] ∧
     allBefore isGeometryRelease isProgramRelease (Square.main env inputs).shutdown = true ∧
     allBefore isProgramRelease isContextRelease (Square.main env inputs).shutdown = true ∧
     (Square.main env inputs).init.filter isAcquire =
        [ .glfwCreateWindow 800 600 "LearnOpenGL" env.window,
          .glGenVertexArrays 1 env.VAO, .glGenBuffers 1 env.VBO, .glGenBuffers 1 env.EBO,
          .glCreateProgram env.shaderProgram ]) ∧
    ((Triangle.main env inputs).shutdown =
        [ .glDeleteVertexArrays 1 env.VAO, .glDeleteBuffers 1 env.VBO,
          .glDeleteProgram env.shaderProgram, .glfwTerminate ] ∧
     allBefore isGeometryRelease isProgramRelease (Triangle.main env inputs).shutdown = true ∧
     allBefore isProgramRelease isContextRelease (Triangle.main env inputs).shutdown = true ∧
     (Triangle.main env inputs).init.filter isAcquire =
        [ .glfwCreateWindow 800 600 "LearnOpenGL" env.window,
          .glGenVertexArrays 1 env.VAO, .glGenBuffers 1 env.VBO,
          .glCreateProgram env.shaderProgram ]) := by
  constructor
  · obtain ⟨window, hw, hg, hl⟩ := Square.exit_zero env inputs hs
    rw [Square.main_ok env window inputs hw hg]
    simp only [hl, if_true, Square.init_acquires env window _ _ hw, hw]
    simp [Square.shutdown, allBefore, isGeometryRelease, isProgramRelease, isContextRelease]
  · obtain ⟨window, hw, hg, hl⟩ := Triangle.triangle_exit_zero env inputs ht
    rw [Triangle.triangle_main_ok env window inputs hw hg]
    simp only [hl, if_true, Triangle.triangle_init_acquires env window hw, hw]
    simp [Triangle.shutdown, allBefore, isGeometryRelease, isProgramRelease, isContextRelease]

/-- Both programs closed by Escape in the first frame. -/
theorem shutdown_releases_geometry_then_program_witness :
    ((Square.main sampleEnv [escapeDown]).shutdown =
        [ .glDeleteVertexArrays 1 sampleEnv.VAO, .glDeleteBuffers 1 sampleEnv.VBO,
          .glDeleteBuffers 1 sampleEnv.EBO, .glDeleteProgram sampleEnv.shaderProgram,
          .glfwTerminate ] ∧
     allBefore isGeometryRelease isProgramRelease
        (Square.main sampleEnv [escapeDown]).shutdown = true ∧
     allBefore isProgramRelease isContextRelease
        (Square.main sampleEnv [escapeDown]).shutdown = true ∧
     (Square.main sampleEnv [escapeDown]).init.filter isAcquire =
        [ .glfwCreateWindow 800 600 "LearnOpenGL" sampleEnv.window,
          .glGenVertexArrays 1 sampleEnv.VAO, .glGenBuffers 1 sampleEnv.VBO,
          .glGenBuffers 1 sampleEnv.EBO, .glCreateProgram sampleEnv.shaderProgram ]) ∧
    ((Triangle.main sampleEnv [escapeDown]).shutdown =
        [ .glDeleteVertexArrays 1 sampleEnv.VAO, .glDeleteBuffers 1 sampleEnv.VBO,
          .glDeleteProgram sampleEnv.shaderProgram, .glfwTerminate ] ∧
     allBefore isGeometryRelease isProgramRelease
        (Triangle.main sampleEnv [escapeDown]).shutdown = true ∧
     allBefore isProgramRelease isContextRelease
        (Triangle.main sampleEnv [escapeDown]).shutdown = true ∧
     (Triangle.main sampleEnv [escapeDown]).init.filter isAcquire =
        [ .glfwCreateWindow 800 600 "LearnOpenGL" sampleEnv.window,
          .glGenVertexArrays 1 sampleEnv.VAO, .glGenBuffers 1 sampleEnv.VBO,
          .glCreateProgram sampleEnv.shaderProgram ]) :=
  shutdown_releases_geometry_then_program sampleEnv [escapeDown] (by decide) (by decide)

end LearnOpenGL
